import Mathlib

/-!
Verification development for the terraform-provider-pagerduty repository.

Go source constructs are shallowly embedded as Lean definitions:
pure helpers become Lean functions, Terraform attribute values become an
inductive type, Go errors become an inductive wrap chain, and the
hashicorp retry helper becomes a fuel-bounded loop.  Handler bodies whose
observable behaviour matters (diagnostics, state removal, mutex usage)
are embedded as effect traces or outcome records.
-/

namespace Pagerduty

/-! ## Go error values (util/errors: IsStatusCodeError, IsBadRequestError, IsNotFoundError) -/

/-- Go `error` values as seen by the provider: either a
`pagerduty.APIError` carrying an HTTP status code, a plain text error, or
a wrapping error with its own message and a cause.  `errors.As` walks the
wrap chain looking for an `APIError`. -/
inductive GoError
| apiError (statusCode : Nat) (message : String)
| textError (message : String)
| wrapped (message : String) (cause : GoError)
deriving DecidableEq

/-- Result of `errors.As(err, &apiErr)`: the first `pagerduty.APIError`
in the wrap chain, as a (statusCode, message) pair. -/
def GoError.asAPIError : GoError → Option (Nat × String)
| .apiError c m => some (c, m)
| .textError _ => none
| .wrapped _ cause => cause.asAPIError

/-- The `err.Error()` message of a Go error value. -/
def GoError.message : GoError → String
| .apiError _ m => m
| .textError m => m
| .wrapped m _ => m

/-- util `IsStatusCodeError`: true when the error unwraps to a
`pagerduty.APIError` whose StatusCode equals `errCode`; false for nil. -/
def IsStatusCodeError (err : Option GoError) (errCode : Nat) : Bool :=
  match err with
  | none => false
  | some e =>
    match e.asAPIError with
    | some (c, _) => c == errCode
    | none => false

/-- util `IsBadRequestError`: status code 400 (http.StatusBadRequest). -/
def IsBadRequestError (err : Option GoError) : Bool :=
  IsStatusCodeError err 400

/-- Matching of the Go regular expression `.*: 404 Not Found$` by
`regexp.MatchString`.  In Go's RE2 semantics, without the multiline flag,
the anchor at the end matches only the end of the text, the dot-star may
be empty, and `MatchString` searches for a match anywhere; the pattern
therefore matches exactly the strings that end with ": 404 Not Found". -/
def notFoundErrorRegexpMatch (s : String) : Bool :=
  s.endsWith ": 404 Not Found"

/-- util `IsNotFoundError`: nil is not a not-found error; an error that
unwraps to a `pagerduty.APIError` with status 404 is; otherwise the error
message is tested against the `.*: 404 Not Found$` fallback pattern. -/
def IsNotFoundError (err : Option GoError) : Bool :=
  match err with
  | none => false
  | some e =>
    match e.asAPIError with
    | some (c, _) =>
      if c == 404 then true
      else notFoundErrorRegexpMatch e.message
    | none => notFoundErrorRegexpMatch e.message

/-- C8: IsNotFoundError(err) returns true iff err is non-nil and either
unwraps to a pagerduty.APIError whose StatusCode is 404 or has an error
message matching the regular expression `.*: 404 Not Found$`; in
particular IsNotFoundError(nil) is false. -/
theorem claim8_is_not_found_error_characterization :
    (∀ e : GoError,
      IsNotFoundError (some e) = true ↔
        (IsStatusCodeError (some e) 404 = true ∨
          notFoundErrorRegexpMatch e.message = true)) ∧
    IsNotFoundError none = false := by
  refine ⟨fun e => ?_, rfl⟩
  cases h : e.asAPIError with
  | none =>
    simp [IsNotFoundError, IsStatusCodeError, h]
  | some p =>
    obtain ⟨c, m⟩ := p
    by_cases hc : c = 404 <;>
      simp [IsNotFoundError, IsStatusCodeError, h, hc]

/-! ## The hashicorp retry helper (helper/retry.RetryContext)

A retry body either succeeds with a value or fails with a decision:
NonRetryableError stops the loop at once and surfaces the error;
RetryableError is tried again until the wall-clock budget expires, in
which case the last error is surfaced.  Wall-clock time is abstracted as
fuel: the number of further attempts the budget still allows. -/

/-- retry.RetryError: the classification a retry body gives to an error. -/
inductive RetryDecision
| nonRetryable (e : GoError)
| retryable (e : GoError)
deriving DecidableEq

/-- Inner loop of retry.RetryContext: run the body at increasing attempt
indices until success, a non-retryable error, or fuel exhaustion. -/
def retryContextAux {α : Type} (body : Nat → Except RetryDecision α) :
    Nat → Nat → Except GoError α
| attempt, fuel =>
  match body attempt with
  | .ok a => .ok a
  | .error (.nonRetryable e) => .error e
  | .error (.retryable e) =>
    match fuel with
    | 0 => .error e
    | f + 1 => retryContextAux body (attempt + 1) f

/-- retry.RetryContext with a budget of `fuel` further attempts. -/
def retryContext {α : Type} (body : Nat → Except RetryDecision α)
    (fuel : Nat) : Except GoError α :=
  retryContextAux body 0 fuel

/-- A non-retryable error on the first attempt stops the loop at once,
whatever the remaining budget. -/
theorem retryContext_stops_on_nonRetryable {α : Type}
    (body : Nat → Except RetryDecision α) (e : GoError)
    (h : body 0 = .error (.nonRetryable e)) (fuel : Nat) :
    retryContext body fuel = .error e := by
  cases fuel <;> simp [retryContext, retryContextAux, h]

/-! ## Error classifiers of the individual retry loops

Each retry body classifies the error returned by its API call.  The
classifiers below are transcribed from the individual loops. -/

/-- Classifier of the requestGetIncidentCustomField loop: bad request is
non-retryable; not-found is non-retryable unless `retryNotFound`;
everything else is retryable. -/
def requestGetIncidentCustomFieldClassify (retryNotFound : Bool)
    (e : GoError) : RetryDecision :=
  if IsBadRequestError (some e) then .nonRetryable e
  else if !retryNotFound && IsNotFoundError (some e) then .nonRetryable e
  else .retryable e

/-- Classifier of the dataSourceUserContactMethod.Read loop: bad request
or not-found is non-retryable; everything else is retryable. -/
def dataSourceUserContactMethodClassify (e : GoError) : RetryDecision :=
  if IsBadRequestError (some e) || IsNotFoundError (some e) then
    .nonRetryable e
  else .retryable e

/-- Classifier of the dataSourceExtensionSchema.Read loop: bad request is
non-retryable; everything else is retryable. -/
def dataSourceExtensionSchemaClassify (e : GoError) : RetryDecision :=
  if IsBadRequestError (some e) then .nonRetryable e
  else .retryable e

/-- Classifier of the requestGetBusinessService loop: every error is
returned as RetryableError, with no bad-request or not-found check. -/
def requestGetBusinessServiceClassify (e : GoError) : RetryDecision :=
  .retryable e

/-- Classifier of the requestGetServiceDependency loop: every error from
the list call is returned as RetryableError after a fixed delay; the
bad-request check exists only as a commented-out TODO in the source. -/
def requestGetServiceDependencyClassify (e : GoError) : RetryDecision :=
  .retryable e

/-- Classifier of the resourceBusinessService.Create loop: every error is
returned as NonRetryableError, with no classification at all. -/
def resourceBusinessServiceCreateClassify (e : GoError) : RetryDecision :=
  .nonRetryable e

/-- Modelled from the spec: the uniform error policy the spec describes
for retry loops — a bad-request error is non-retryable and surfaced
immediately, a not-found error is handled per operation (here a
parameter saying whether it stops the loop), and every other error is
retryable. -/
def specRetryClassify (notFoundStops : Bool) (e : GoError) : RetryDecision :=
  if IsBadRequestError (some e) then .nonRetryable e
  else if notFoundStops && IsNotFoundError (some e) then .nonRetryable e
  else .retryable e

/-- C1 counterexample: the requestGetBusinessService and
requestGetServiceDependency retry loops classify an HTTP 400 bad-request
error as retryable rather than stopping immediately, and the
resourceBusinessService.Create loop classifies a transient text error as
non-retryable rather than retrying it, so the claimed uniform policy
fails on these loops: on these concrete errors all three classifiers
disagree with the spec policy. -/
theorem claim1_counterexample :
    (requestGetBusinessServiceClassify (GoError.apiError 400 "bad") ==
      specRetryClassify false (GoError.apiError 400 "bad")) = false ∧
    (requestGetServiceDependencyClassify (GoError.apiError 400 "bad") ==
      specRetryClassify false (GoError.apiError 400 "bad")) = false ∧
    (resourceBusinessServiceCreateClassify (GoError.textError "transient") ==
      specRetryClassify false (GoError.textError "transient")) = false ∧
    requestGetBusinessServiceClassify (GoError.apiError 400 "bad") =
      RetryDecision.retryable (GoError.apiError 400 "bad") ∧
    requestGetServiceDependencyClassify (GoError.apiError 400 "bad") =
      RetryDecision.retryable (GoError.apiError 400 "bad") ∧
    resourceBusinessServiceCreateClassify (GoError.textError "transient") =
      RetryDecision.nonRetryable (GoError.textError "transient") := by
  decide

/-- C1 amended: the classifier-based retry loops
(requestGetIncidentCustomField, dataSourceUserContactMethod.Read,
dataSourceExtensionSchema.Read, and the other loops sharing these three
classifier shapes) implement the spec policy — bad request stops the
loop immediately, not-found is handled per operation, all other errors
are retried until the budget expires — but three loops deviate:
resourceBusinessService.Create treats every error as non-retryable,
while requestGetBusinessService and requestGetServiceDependency treat
every error, bad request included, as retryable. -/
theorem claim1_retry_classification_amended :
    ∀ (retryNotFound : Bool) (e : GoError),
      requestGetIncidentCustomFieldClassify retryNotFound e =
        specRetryClassify (!retryNotFound) e ∧
      dataSourceUserContactMethodClassify e = specRetryClassify true e ∧
      dataSourceExtensionSchemaClassify e = specRetryClassify false e ∧
      requestGetBusinessServiceClassify e = RetryDecision.retryable e ∧
      requestGetServiceDependencyClassify e = RetryDecision.retryable e ∧
      resourceBusinessServiceCreateClassify e = RetryDecision.nonRetryable e := by
  intro retryNotFound e
  refine ⟨rfl, ?_, ?_, rfl, rfl, rfl⟩
  · by_cases hb : IsBadRequestError (some e) = true <;>
      by_cases hn : IsNotFoundError (some e) = true <;>
        simp [dataSourceUserContactMethodClassify, specRetryClassify, hb, hn]
  · by_cases hb : IsBadRequestError (some e) = true <;>
      simp [dataSourceExtensionSchemaClassify, specRetryClassify, hb]

/-! ## Retry budgets (C3)

One entry per retry.RetryContext call site in a non-test resource or
data-source file, recording the wall-clock timeout in minutes. -/

/-- Wall-clock retry budgets, in minutes, of every RetryContext call in a
resource or data-source operation:
dataSourceExtensionSchema.Read,
resourceIncidentCustomField.Create, requestGetIncidentCustomField,
dataSourceUserContactMethod.Read,
requestGetServiceDependency, resourceIncidentCustomFieldOption.Create,
resourceIncidentCustomFieldOption.Read,
dataSourceIncidentCustomField.Read (plugin),
resourceBusinessServiceSubscriber.Create,
requestGetBusinessServiceSubscriber,
dataSourcePagerDutyIncidentCustomFieldRead (sdk),
resourceSlackConnection.Create, resourceSlackConnection.Delete,
requestGetSlackConnection, dataSourceService.Read,
resourceServiceIntegration.Create, requestGetServiceIntegration,
resourceBusinessService.Create, requestGetBusinessService,
and the duplicated service-integration Create and get loops. -/
def retryTimeoutsMinutes : List Nat :=
  [2, 2, 2, 5, 5, 2, 2, 2, 2, 2, 5, 2, 2, 2, 2, 2, 2, 5, 5, 2, 2]

/-- C3: every retry loop executed by a resource or data-source operation
is bounded by a wall-clock timeout of either 2 or 5 minutes, and there is
at least one such loop, so no operation retries without bound. -/
theorem claim3_retry_budgets_bounded :
    retryTimeoutsMinutes.all (fun t => t == 2 || t == 5) = true ∧
    retryTimeoutsMinutes.length = 21 := by
  decide

/-! ## Terraform attribute strings (terraform-plugin-framework types.String) -/

/-- A framework types.String value: null, unknown, or a known string.
The zero value of the Go struct field is the null string. -/
inductive AttrString
| null
| unknown
| value (s : String)
deriving DecidableEq

/-- types.String.ValueString(): the known string, or "" when the value is
null or unknown. -/
def AttrString.valueString : AttrString → String
| .value s => s
| _ => ""

/-! ## pagerduty_incident_custom_field (C2) -/

/-- A Go `interface{}` value as used for custom field default values:
either a string or some other value with its `%v` rendering. -/
inductive GoValue
| str (s : String)
| other (rendering : String)
deriving DecidableEq

/-- fmt.Sprintf("%v", v). -/
def GoValue.sprintfV : GoValue → String
| .str s => s
| .other r => r

/-- json.Marshal of the value; only strings ever reach this call in the
source, and a Go string marshals to itself in quotes. -/
def GoValue.jsonMarshal : GoValue → String
| .str s => "\"" ++ s ++ "\""
| .other r => r

/-- Wire-format pagerduty.CustomField, in the fields the provider uses. -/
structure CustomField where
  id : String
  name : String
  displayName : String
  dataType : String
  fieldType : String
  description : String
  defaultValue : Option GoValue
deriving DecidableEq

/-- Typed attribute model resourceIncidentCustomFieldModel. -/
structure IncidentCustomFieldModel where
  id : AttrString
  name : AttrString
  displayName : AttrString
  description : AttrString
  defaultValue : AttrString
  dataType : AttrString
  fieldType : AttrString
deriving DecidableEq

/-- isCustomFieldMultiValue: a string value equal to one of the two
multi-value field types. -/
def isCustomFieldMultiValue : GoValue → Bool
| .str v => v == "multi_value" || v == "multi_value_fixed"
| _ => false

/-- flattenIncidentCustomFieldDefaultValue: multi-values are marshalled
to JSON, anything else is rendered with %v. -/
def flattenIncidentCustomFieldDefaultValue (defaultValue : GoValue) :
    AttrString :=
  if isCustomFieldMultiValue defaultValue then
    .value defaultValue.jsonMarshal
  else
    .value defaultValue.sprintfV

/-- flattenIncidentCustomField: wire object to typed model; description
is kept null when empty, the default value is flattened only when
non-nil. -/
def flattenIncidentCustomField (response : CustomField) :
    IncidentCustomFieldModel :=
  { id := .value response.id
    name := .value response.name
    displayName := .value response.displayName
    dataType := .value response.dataType
    fieldType := .value response.fieldType
    description :=
      if response.description ≠ "" then .value response.description
      else .null
    defaultValue :=
      match response.defaultValue with
      | some v => flattenIncidentCustomFieldDefaultValue v
      | none => .null }

/-- requestGetIncidentCustomField: GET inside a retry loop whose body
classifies errors with requestGetIncidentCustomFieldClassify and
flattens the response on success.  The remote API is abstracted as an
attempt-indexed oracle. -/
def requestGetIncidentCustomField
    (api : Nat → Except GoError CustomField) (retryNotFound : Bool)
    (fuel : Nat) : Except GoError IncidentCustomFieldModel :=
  retryContext
    (fun attempt =>
      match api attempt with
      | .ok cf => .ok (flattenIncidentCustomField cf)
      | .error e =>
        .error (requestGetIncidentCustomFieldClassify retryNotFound e))
    fuel

/-- Observable outcome of a Read handler: whether the resource was
removed from state, whether an error diagnostic was added, and the state
that was set (if any). -/
structure ReadOutcome where
  removedFromState : Bool
  errorDiagAdded : Bool
  stateSet : Option IncidentCustomFieldModel
deriving DecidableEq

/-- resourceIncidentCustomField.Read after the GET request: on success
the state is set; on a not-found error the resource is removed from
state with no diagnostic; on any other error a diagnostic is added and
the state is left in place. -/
def resourceIncidentCustomFieldRead
    (getResult : Except GoError IncidentCustomFieldModel) : ReadOutcome :=
  match getResult with
  | .ok state =>
    { removedFromState := false, errorDiagAdded := false
      stateSet := some state }
  | .error err =>
    if IsNotFoundError (some err) then
      { removedFromState := true, errorDiagAdded := false, stateSet := none }
    else
      { removedFromState := false, errorDiagAdded := true, stateSet := none }

/-- C2: when the incident custom field Read's GET fails with a not-found
error, the resource is removed from Terraform state and no error
diagnostic is added; for any other error a diagnostic is added and the
state is not removed. -/
theorem claim2_read_not_found_removes_state :
    ∀ e : GoError,
      (IsNotFoundError (some e) = true →
        resourceIncidentCustomFieldRead (.error e) =
          { removedFromState := true, errorDiagAdded := false
            stateSet := none }) ∧
      (IsNotFoundError (some e) = false →
        resourceIncidentCustomFieldRead (.error e) =
          { removedFromState := false, errorDiagAdded := true
            stateSet := none }) := by
  intro e
  constructor <;> intro h <;> simp [resourceIncidentCustomFieldRead, h]

/-- Witness for C2 at a 404 API error and at a plain transient error. -/
theorem claim2_read_not_found_removes_state_witness :
    resourceIncidentCustomFieldRead (.error (GoError.apiError 404 "x")) =
      { removedFromState := true, errorDiagAdded := false
        stateSet := none } ∧
    resourceIncidentCustomFieldRead (.error (GoError.textError "boom")) =
      { removedFromState := false, errorDiagAdded := true
        stateSet := none } :=
  ⟨(claim2_read_not_found_removes_state (GoError.apiError 404 "x")).1
      (by decide),
   (claim2_read_not_found_removes_state (GoError.textError "boom")).2
      (by decide)⟩

/-! ## pagerduty_business_service (C4) -/

/-- Wire-format pagerduty.BusinessServiceTeam, in the only field the
provider reads or writes (the team ID). -/
structure BusinessServiceTeam where
  id : String
deriving DecidableEq

/-- Wire-format pagerduty.BusinessService, in the fields the provider
uses; the team pointer is an Option. -/
structure BusinessService where
  id : String
  name : String
  description : String
  htmlUrl : String
  self : String
  summary : String
  type : String
  pointOfContact : String
  team : Option BusinessServiceTeam
deriving DecidableEq

/-- Typed attribute model resourceBusinessServiceModel. -/
structure BusinessServiceModel where
  id : AttrString
  description : AttrString
  htmlUrl : AttrString
  name : AttrString
  pointOfContact : AttrString
  self : AttrString
  summary : AttrString
  team : AttrString
  type : AttrString
deriving DecidableEq

/-- buildPagerdutyBusinessService: model to wire object; every field is
read with ValueString, and the team is always built as a non-nil
pointer holding the model's team ID. -/
def buildPagerdutyBusinessService (model : BusinessServiceModel) :
    BusinessService :=
  { id := model.id.valueString
    description := model.description.valueString
    htmlUrl := model.htmlUrl.valueString
    name := model.name.valueString
    pointOfContact := model.pointOfContact.valueString
    self := model.self.valueString
    summary := model.summary.valueString
    team := some { id := model.team.valueString }
    type := model.type.valueString }

/-- flattenBusinessService: wire object to model; point of contact is
kept null when empty and the team attribute is null when the wire team
pointer is nil. -/
def flattenBusinessService (src : BusinessService) : BusinessServiceModel :=
  let base : BusinessServiceModel :=
    { id := .value src.id
      description := .value src.description
      htmlUrl := .value src.htmlUrl
      name := .value src.name
      self := .value src.self
      summary := .value src.summary
      type := .value src.type
      pointOfContact := .null
      team := .null }
  let withPoc :=
    if src.pointOfContact ≠ "" then
      { base with pointOfContact := .value src.pointOfContact }
    else base
  match src.team with
  | some t => { withPoc with team := .value t.id }
  | none => withPoc

/-- C4 counterexample: for a wire BusinessService whose team pointer is
nil, rebuilding from the flattened model yields a non-nil team with an
empty ID, so the rebuilt object differs from the source in the Team
field. -/
theorem claim4_counterexample :
    ((buildPagerdutyBusinessService (flattenBusinessService
        { id := "PB1", name := "N", description := "D", htmlUrl := "H"
          self := "S", summary := "Sum", type := "business_service"
          pointOfContact := "", team := none })).team ==
      (none : Option BusinessServiceTeam)) = false ∧
    (buildPagerdutyBusinessService (flattenBusinessService
        { id := "PB1", name := "N", description := "D", htmlUrl := "H"
          self := "S", summary := "Sum", type := "business_service"
          pointOfContact := "", team := none })).team =
      some { id := "" } := by
  decide

/-- C4 amended: rebuilding a BusinessService from its flattened model
restores ID, Name, Description, HTMLUrl, Self, Summary, Type, and
PointOfContact exactly; the Team field is always rebuilt as a non-nil
team whose ID is the source team's ID when the source team is non-nil
and the empty string when it is nil, so Team round-trips exactly when
the source team pointer is non-nil. -/
theorem claim4_business_service_round_trip_amended :
    ∀ src : BusinessService,
      (buildPagerdutyBusinessService (flattenBusinessService src)).id =
        src.id ∧
      (buildPagerdutyBusinessService (flattenBusinessService src)).name =
        src.name ∧
      (buildPagerdutyBusinessService (flattenBusinessService src)).description =
        src.description ∧
      (buildPagerdutyBusinessService (flattenBusinessService src)).htmlUrl =
        src.htmlUrl ∧
      (buildPagerdutyBusinessService (flattenBusinessService src)).self =
        src.self ∧
      (buildPagerdutyBusinessService (flattenBusinessService src)).summary =
        src.summary ∧
      (buildPagerdutyBusinessService (flattenBusinessService src)).type =
        src.type ∧
      (buildPagerdutyBusinessService (flattenBusinessService src)).pointOfContact =
        src.pointOfContact ∧
      (buildPagerdutyBusinessService (flattenBusinessService src)).team =
        some { id := (src.team.map BusinessServiceTeam.id).getD "" } := by
  intro src
  obtain ⟨i, n, d, h, sf, sm, ty, poc, team⟩ := src
  cases team <;> by_cases hp : poc = "" <;>
    simp [buildPagerdutyBusinessService, flattenBusinessService,
      AttrString.valueString, hp]

/-! ## Client configuration (config.go, C5) -/

/-- Provider Config, in the fields getClient consults. -/
structure Config where
  apiURL : String
  apiURLOverride : String
  token : String
  skipCredsValidation : Bool
  insecureTls : Bool
deriving DecidableEq

/-- Settings of the API client constructed by Config.getClient. -/
structure ClientSettings where
  apiEndpoint : String
  token : String
  maxRetries : Nat
  retryIntervalSeconds : Nat
  insecureSkipVerify : Bool
deriving DecidableEq

/-- Config.getClient: the endpoint starts as APIURL and is replaced by
APIURLOverride when that override is non-empty; the client is built with
one retry at a 60 second interval. -/
def Config.getClient (c : Config) (token : String) : ClientSettings :=
  let apiURL := if c.apiURLOverride ≠ "" then c.apiURLOverride else c.apiURL
  { apiEndpoint := apiURL
    token := token
    maxRetries := 1
    retryIntervalSeconds := 60
    insecureSkipVerify := c.insecureTls }

/-- C5: getClient uses APIURLOverride as the API endpoint whenever it is
a non-empty string, and APIURL otherwise. -/
theorem claim5_api_url_override :
    ∀ (c : Config) (token : String),
      (c.apiURLOverride ≠ "" →
        (c.getClient token).apiEndpoint = c.apiURLOverride) ∧
      (c.apiURLOverride = "" →
        (c.getClient token).apiEndpoint = c.apiURL) := by
  intro c token
  constructor <;> intro h <;> simp [Config.getClient, h]

/-- Witness for C5 with a non-empty override and with an empty one. -/
theorem claim5_api_url_override_witness :
    (Config.getClient
      { apiURL := "https://api.pagerduty.com"
        apiURLOverride := "https://api.eu.pagerduty.com"
        token := "t", skipCredsValidation := false, insecureTls := false }
      "t").apiEndpoint = "https://api.eu.pagerduty.com" ∧
    (Config.getClient
      { apiURL := "https://api.pagerduty.com", apiURLOverride := ""
        token := "t", skipCredsValidation := false, insecureTls := false }
      "t").apiEndpoint = "https://api.pagerduty.com" :=
  ⟨(claim5_api_url_override
      { apiURL := "https://api.pagerduty.com"
        apiURLOverride := "https://api.eu.pagerduty.com"
        token := "t", skipCredsValidation := false, insecureTls := false }
      "t").1 (by decide),
   (claim5_api_url_override
      { apiURL := "https://api.pagerduty.com", apiURLOverride := ""
        token := "t", skipCredsValidation := false, insecureTls := false }
      "t").2 rfl⟩

/-! ## pagerduty_slack_connection config (C9) -/

/-- StarWildcardConfig, the "*" wildcard accepted for priorities. -/
def StarWildcardConfig : String := "*"

/-- Wire-format pagerduty.SlackConnectionConfig; a `none` priorities
models the Go nil slice the API expects for the wildcard. -/
structure SlackConnectionConfig where
  events : List String
  priorities : Option (List String)
  urgency : Option String
deriving DecidableEq

/-- buildPagerdutySlackConnectionConfig, on the values decoded from the
attribute lists: a priorities list that is exactly the single star
wildcard is expanded to the nil slice; any other list is passed
through. -/
def buildPagerdutySlackConnectionConfig (events priorities : List String)
    (urgency : Option String) : SlackConnectionConfig :=
  { events := events
    priorities :=
      if priorities = [StarWildcardConfig] then none else some priorities
    urgency := urgency }

/-- flattenSlackConnectionConfig, returning the attribute values
(events, priorities, urgency): a nil priorities slice is flattened back
to the single-element star wildcard list. -/
def flattenSlackConnectionConfig (cfg : SlackConnectionConfig) :
    List String × List String × Option String :=
  ( cfg.events
  , match cfg.priorities with
    | none => [StarWildcardConfig]
    | some ps => ps
  , cfg.urgency )

/-- C9: building maps the single-element wildcard priorities list to a
nil slice, flattening maps a nil slice back to the wildcard list, and
the two compose to the identity in either order on these two shapes. -/
theorem claim9_slack_priorities_wildcard :
    ∀ (events : List String) (urgency : Option String)
      (cfg : SlackConnectionConfig),
      (buildPagerdutySlackConnectionConfig events [StarWildcardConfig]
        urgency).priorities = none ∧
      (cfg.priorities = none →
        (flattenSlackConnectionConfig cfg).2.1 = [StarWildcardConfig]) ∧
      (flattenSlackConnectionConfig
        (buildPagerdutySlackConnectionConfig events [StarWildcardConfig]
          urgency)).2.1 = [StarWildcardConfig] ∧
      (cfg.priorities = none →
        (buildPagerdutySlackConnectionConfig
          (flattenSlackConnectionConfig cfg).1
          (flattenSlackConnectionConfig cfg).2.1
          (flattenSlackConnectionConfig cfg).2.2).priorities = none) := by
  intro events urgency cfg
  refine ⟨?_, fun h => ?_, ?_, fun h => ?_⟩ <;>
    simp [buildPagerdutySlackConnectionConfig, flattenSlackConnectionConfig,
      *]

/-- Witness for C9 at concrete events, urgency, and config. -/
theorem claim9_slack_priorities_wildcard_witness :
    (flattenSlackConnectionConfig
      { events := ["incident.triggered"], priorities := none
        urgency := none }).2.1 = [StarWildcardConfig] ∧
    (buildPagerdutySlackConnectionConfig
      (flattenSlackConnectionConfig
        { events := ["incident.triggered"], priorities := none
          urgency := none }).1
      (flattenSlackConnectionConfig
        { events := ["incident.triggered"], priorities := none
          urgency := none }).2.1
      (flattenSlackConnectionConfig
        { events := ["incident.triggered"], priorities := none
          urgency := none }).2.2).priorities = none :=
  ⟨(claim9_slack_priorities_wildcard [] none
      { events := ["incident.triggered"], priorities := none
        urgency := none }).2.1 rfl,
   (claim9_slack_priorities_wildcard [] none
      { events := ["incident.triggered"], priorities := none
        urgency := none }).2.2.2 rfl⟩

/-! ## pagerduty_user_contact_method data source (C10) -/

/-- Wire-format pagerduty.ContactMethod, in the fields the data source
reads. -/
structure ContactMethod where
  id : String
  label : String
  type : String
  address : String
deriving DecidableEq

/-- The search loop of dataSourceUserContactMethod.Read: walk the listed
contact methods in order and keep the first one whose Label equals the
requested label OR whose Type equals the requested type. -/
def findUserContactMethod (methods : List ContactMethod)
    (searchLabel searchType : String) : Option ContactMethod :=
  methods.find? (fun cm => cm.label == searchLabel || cm.type == searchType)

/-- C10: the data source selects the first method matching by label OR
by type; in this listing the first method matches only the requested
type (its label differs) and precedes a method matching the requested
label, and it is the one returned. -/
theorem claim10_contact_method_type_match_first :
    findUserContactMethod
      [ { id := "P1", label := "Home", type := "email_contact_method"
          address := "a@example.com" }
      , { id := "P2", label := "Work Phone", type := "phone_contact_method"
          address := "555" } ]
      "Work Phone" "email_contact_method" =
      some { id := "P1", label := "Home", type := "email_contact_method"
             address := "a@example.com" } ∧
    ("Home" == "Work Phone") = false := by
  decide

/-! ## Effect traces for pagerduty_service_dependency handlers (C6, C7)

The observable actions a handler performs are recorded as a list of
events: taking and releasing the global mutex, calling a client API
method, setting or removing Terraform state, and adding diagnostics. -/

/-- One observable action of a handler body. -/
inductive Event
| lockMu
| unlockMu
| apiCall (name : String)
| stateSet
| stateRemove
| addWarning (summary detail : String)
| addError (summary detail : String)
deriving DecidableEq

/-- Whether an event is a client API call. -/
def Event.isApiCall : Event → Bool
| .apiCall _ => true
| _ => false

/-- Whether an event writes or removes Terraform state. -/
def Event.changesState : Event → Bool
| .stateSet => true
| .stateRemove => true
| _ => false

/-- Trace of resourceServiceDependency.Update: the body only adds one
warning diagnostic and returns. -/
def resourceServiceDependencyUpdateTrace : List Event :=
  [.addWarning "Update for service dependency has no effect" ""]

/-- C6: for every plan, the service dependency Update handler makes no
API call and neither sets nor removes Terraform state; its whole
observable behaviour is the single warning diagnostic. -/
theorem claim6_service_dependency_update_no_effect :
    resourceServiceDependencyUpdateTrace.all
      (fun e => !e.isApiCall && !e.changesState) = true ∧
    resourceServiceDependencyUpdateTrace =
      [Event.addWarning "Update for service dependency has no effect" ""] := by
  decide

/-- Name of the association endpoint method guarded by the mutex. -/
def assocCallName : String := "AssociateServiceDependenciesWithContext"

/-- Trace of resourceServiceDependency.Create after the plan decodes:
lock resourceServiceDependencyMu, call the association endpoint, unlock,
then either add an error diagnostic (when the call failed with message
`errMsg`) or set the state from the flattened response. -/
def resourceServiceDependencyCreateTrace (failed : Bool) (errMsg : String) :
    List Event :=
  [Event.lockMu, Event.apiCall assocCallName, Event.unlockMu] ++
    (if failed then
      [Event.addError "Error calling AssociateServiceDependenciesWithContext"
        errMsg]
    else [Event.stateSet])

/-- Number of unmatched lock acquisitions in the first `pc` events of a
trace, starting from balance `bal`. -/
def locksHeldFrom : Nat → List Event → Nat → Nat
| bal, _, 0 => bal
| bal, [], _ + 1 => bal
| bal, e :: tr, pc + 1 =>
  locksHeldFrom
    (match e with
    | Event.lockMu => bal + 1
    | Event.unlockMu => bal - 1
    | _ => bal)
    tr pc

/-- Whether the mutex is held after the first `pc` events of a trace. -/
def holdsMu (tr : List Event) (pc : Nat) : Bool :=
  locksHeldFrom 0 tr pc != 0

/-- State of two handler invocations running concurrently: each thread's
program counter into its trace, and the mutex owner (none when free,
some false for the left thread, some true for the right one). -/
structure SysState where
  pc1 : Nat
  pc2 : Nat
  owner : Option Bool
deriving DecidableEq

/-- Whether a thread may execute its next event given the mutex owner:
Lock blocks while the mutex is held by anyone; every other event is
always enabled (Unlock releases unconditionally, as Go's sync.Mutex
does not track ownership). -/
def muEnabled (e : Event) (owner : Option Bool) : Prop :=
  match e with
  | Event.lockMu => owner = none
  | _ => True

/-- Mutex owner after a thread `tid` executes event `e`. -/
def muUpdate (e : Event) (owner : Option Bool) (tid : Bool) : Option Bool :=
  match e with
  | Event.lockMu => some tid
  | Event.unlockMu => none
  | _ => owner

/-- Interleaving semantics of two threads running traces `t1` and `t2`:
at each step one thread executes its next event, when enabled. -/
inductive MuStep (t1 t2 : List Event) : SysState → SysState → Prop
| left (s : SysState) (e : Event)
    (hget : t1.get? s.pc1 = some e) (hen : muEnabled e s.owner) :
    MuStep t1 t2 s ⟨s.pc1 + 1, s.pc2, muUpdate e s.owner false⟩
| right (s : SysState) (e : Event)
    (hget : t2.get? s.pc2 = some e) (hen : muEnabled e s.owner) :
    MuStep t1 t2 s ⟨s.pc1, s.pc2 + 1, muUpdate e s.owner true⟩

/-- States reachable from both threads at the start with the mutex
free. -/
def MuReachable (t1 t2 : List Event) (s : SysState) : Prop :=
  Relation.ReflTransGen (MuStep t1 t2) ⟨0, 0, none⟩ s

/-- Inductive invariant: a thread that holds the mutex at its current
position is the recorded owner. -/
def MuInv (t1 t2 : List Event) (s : SysState) : Prop :=
  (holdsMu t1 s.pc1 = true → s.owner = some false) ∧
  (holdsMu t2 s.pc2 = true → s.owner = some true)

theorem createTrace_get_oob (f : Bool) (m : String) (p : Nat) :
    (resourceServiceDependencyCreateTrace f m).get? (p + 4) = none := by
  cases f <;> rfl

theorem createTrace_step_preserves_inv
    (f1 f2 : Bool) (m1 m2 : String) (s s' : SysState)
    (hstep : MuStep (resourceServiceDependencyCreateTrace f1 m1)
      (resourceServiceDependencyCreateTrace f2 m2) s s')
    (hinv : MuInv (resourceServiceDependencyCreateTrace f1 m1)
      (resourceServiceDependencyCreateTrace f2 m2) s) :
    MuInv (resourceServiceDependencyCreateTrace f1 m1)
      (resourceServiceDependencyCreateTrace f2 m2) s' := by
  obtain ⟨p1, p2, ow⟩ := s
  obtain ⟨hinv1, hinv2⟩ := hinv
  cases hstep with
  | left e hget hen =>
    have hlt : p1 < 4 := by
      by_contra hge
      obtain ⟨k, rfl⟩ : ∃ k, p1 = k + 4 := ⟨p1 - 4, by omega⟩
      rw [createTrace_get_oob] at hget
      exact Option.noConfusion hget
    cases f1 <;> interval_cases p1 <;> cases e <;>
      simp_all [resourceServiceDependencyCreateTrace, muEnabled, muUpdate,
        MuInv, holdsMu, locksHeldFrom, assocCallName]
  | right e hget hen =>
    have hlt : p2 < 4 := by
      by_contra hge
      obtain ⟨k, rfl⟩ : ∃ k, p2 = k + 4 := ⟨p2 - 4, by omega⟩
      rw [createTrace_get_oob] at hget
      exact Option.noConfusion hget
    cases f2 <;> interval_cases p2 <;> cases e <;>
      simp_all [resourceServiceDependencyCreateTrace, muEnabled, muUpdate,
        MuInv, holdsMu, locksHeldFrom, assocCallName]

theorem createTrace_reachable_inv
    (f1 f2 : Bool) (m1 m2 : String) (s : SysState)
    (h : MuReachable (resourceServiceDependencyCreateTrace f1 m1)
      (resourceServiceDependencyCreateTrace f2 m2) s) :
    MuInv (resourceServiceDependencyCreateTrace f1 m1)
      (resourceServiceDependencyCreateTrace f2 m2) s := by
  induction h with
  | refl =>
    exact ⟨fun hh => Bool.noConfusion hh, fun hh => Bool.noConfusion hh⟩
  | tail hr hstep ih =>
    exact createTrace_step_preserves_inv f1 f2 m1 m2 _ _ hstep ih

/-- C7: the association endpoint is called only while the global mutex
resourceServiceDependencyMu is held (every occurrence of the call in the
Create trace lies between the Lock and the Unlock), and under the
interleaving semantics of two concurrent Create invocations no reachable
state has both threads holding the mutex, so the two never issue the
list-mutation request at the same time. -/
theorem claim7_assoc_call_under_mutex :
    (∀ (failed : Bool) (errMsg : String) (pc : Nat),
      (resourceServiceDependencyCreateTrace failed errMsg).get? pc =
        some (Event.apiCall assocCallName) →
      holdsMu (resourceServiceDependencyCreateTrace failed errMsg) pc =
        true) ∧
    (∀ (f1 f2 : Bool) (m1 m2 : String) (s : SysState),
      MuReachable (resourceServiceDependencyCreateTrace f1 m1)
        (resourceServiceDependencyCreateTrace f2 m2) s →
      ¬(holdsMu (resourceServiceDependencyCreateTrace f1 m1) s.pc1 = true ∧
        holdsMu (resourceServiceDependencyCreateTrace f2 m2) s.pc2 =
          true)) := by
  constructor
  · intro failed errMsg pc hget
    have hlt : pc < 4 := by
      by_contra hge
      obtain ⟨k, rfl⟩ : ∃ k, pc = k + 4 := ⟨pc - 4, by omega⟩
      rw [createTrace_get_oob] at hget
      exact Option.noConfusion hget
    interval_cases pc
    · cases failed <;> simp [resourceServiceDependencyCreateTrace] at hget
    · cases failed <;> rfl
    · cases failed <;> simp [resourceServiceDependencyCreateTrace] at hget
    · cases failed <;>
        simp [resourceServiceDependencyCreateTrace] at hget
  · intro f1 f2 m1 m2 s hreach ⟨h1, h2⟩
    obtain ⟨hinv1, hinv2⟩ :=
      createTrace_reachable_inv f1 f2 m1 m2 s hreach
    have ha := hinv1 h1
    have hb := hinv2 h2
    rw [ha] at hb
    exact Bool.noConfusion (Option.some.injEq _ _ ▸ hb)

/-- Witness for C7: the call at index 1 of the success trace is under
the mutex, and the initial state of two concurrent Creates (reachable by
the empty run) does not have both threads inside the critical
section. -/
theorem claim7_assoc_call_under_mutex_witness :
    holdsMu (resourceServiceDependencyCreateTrace false "") 1 = true ∧
    ¬(holdsMu (resourceServiceDependencyCreateTrace false "")
        (SysState.mk 0 0 none).pc1 = true ∧
      holdsMu (resourceServiceDependencyCreateTrace false "")
        (SysState.mk 0 0 none).pc2 = true) :=
  ⟨claim7_assoc_call_under_mutex.1 false "" 1 rfl,
   claim7_assoc_call_under_mutex.2 false false "" "" ⟨0, 0, none⟩
     Relation.ReflTransGen.refl⟩

end Pagerduty
